import Mathlib

/-!
Verification of the auto-save scheduling and retry state machine of
`use-form-auto-save` (`src/useFormAutoSave.ts`, hook `useFormAutoSave`).

The hook is embedded as an explicit event-loop machine: React state becomes a
`SessionState` record, the `useEffect` body (change gate + debounce arming)
becomes `runEffect`, the debounced async save callback becomes `doSave`, and
`setTimeout`/`clearTimeout` become explicit timer slots fired in time order by
a fuelled scheduler.  Form snapshots are modelled as flat string-valued field
lists; `JSON.stringify`/`JSON.parse` are modelled for that fragment (the exact
grammar the hook itself writes: no whitespace, string fields, quote and
backslash escaped).
-/

/-- The three storage targets of the hook (`StorageType` in the source). -/
inductive StorageType where
  | localStorage
  | sessionStorage
  | api
deriving DecidableEq, Repr

/-- A form snapshot: a flat object mapping field names to string values,
in insertion order (the order `JSON.stringify` serializes keys in). -/
abbrev Snapshot := List (String × String)

/-- Escape a character for a JSON string literal: quote and backslash get a
leading backslash, everything else is kept as is. -/
def escChar (c : Char) : List Char :=
  if c = '"' ∨ c = '\\' then ['\\', c] else [c]

/-- Escape the characters of a string for a JSON string literal. -/
def escList (cs : List Char) : List Char :=
  match cs with
  | [] => []
  | c :: rest => escChar c ++ escList rest

/-- The characters of a JSON string literal: quote, escaped body, quote. -/
def quoteChars (s : String) : List Char :=
  '"' :: (escList s.data ++ ['"'])

/-- The characters of one `"key":"value"` field. -/
def pairChars (p : String × String) : List Char :=
  quoteChars p.1 ++ ':' :: quoteChars p.2

/-- The characters of the comma-separated field list of an object. -/
def fieldsChars : Snapshot → List Char
  | [] => []
  | [p] => pairChars p
  | p :: q :: rest => pairChars p ++ ',' :: fieldsChars (q :: rest)

/-- Model of `JSON.stringify` on a flat string-valued object: braces around the
comma-separated fields, keys in insertion order, no whitespace. -/
def jsonStringify (snap : Snapshot) : String :=
  String.mk ('{' :: (fieldsChars snap ++ ['}']))

/-- Parse the body of a JSON string literal (after the opening quote) up to the
closing quote, undoing the escaping; returns the content and the rest. -/
def parseStringAux : List Char → Option (List Char × List Char)
  | [] => none
  | c :: rest =>
    if c = '"' then some ([], rest)
    else if c = '\\' then
      match rest with
      | [] => none
      | c2 :: rest2 =>
        match parseStringAux rest2 with
        | none => none
        | some p => some (c2 :: p.1, p.2)
    else
      match parseStringAux rest with
      | none => none
      | some p => some (c :: p.1, p.2)

/-- Parse one `"key":"value"` field; returns the pair and the rest. -/
def parsePair (cs : List Char) : Option ((String × String) × List Char) :=
  match cs with
  | [] => none
  | c :: rest =>
    if c = '"' then
      match parseStringAux rest with
      | none => none
      | some (k, rest1) =>
        match rest1 with
        | [] => none
        | c1 :: rest2 =>
          if c1 = ':' then
            match rest2 with
            | [] => none
            | c2 :: rest3 =>
              if c2 = '"' then
                match parseStringAux rest3 with
                | none => none
                | some (v, rest4) => some ((String.mk k, String.mk v), rest4)
              else none
          else none
      else none

/-- Parse a nonempty comma-separated field list, with fuel. -/
def parseFieldsAux : Nat → List Char → Option (Snapshot × List Char)
  | 0, _ => none
  | fuel + 1, cs =>
    match parsePair cs with
    | none => none
    | some (kv, rest) =>
      match rest with
      | [] => none
      | c :: rest2 =>
        if c = ',' then
          match parseFieldsAux fuel rest2 with
          | none => none
          | some (fs, rest3) => some (kv :: fs, rest3)
        else some ([kv], c :: rest2)

/-- Model of `JSON.parse` on the object fragment the hook writes: a flat
string-valued object with no whitespace.  `none` models a thrown
`SyntaxError`. -/
def jsonParse (s : String) : Option Snapshot :=
  match s.data with
  | [] => none
  | c :: rest =>
    if c = '{' then
      if rest = ['}'] then some []
      else
        match parseFieldsAux rest.length rest with
        | none => none
        | some (fs, rest3) => if rest3 = ['}'] then some fs else none
    else none

/-- Configuration record of the hook (`AutoSaveConfig`), with the source's
defaults.  `hasSaveFunction` records whether a `saveFunction` was supplied;
its behaviour lives in `Env`. -/
structure Config where
  formKey : String
  debounceTime : Nat := 1000
  storageType : StorageType := .localStorage
  hasSaveFunction : Bool := false
  maxRetries : Nat := 3
  skipInitialSave : Bool := false
deriving DecidableEq, Repr

/-- External outcomes: whether the n-th `saveFunction` call rejects and whether
the n-th `storage.setItem` call throws (e.g. quota exceeded), with the error
value passed to `catch`. -/
structure Env where
  apiResult : Nat → Except String Unit
  storageResult : Nat → Except String Unit

/-- The React state of one hook instance: the five `useState` cells plus the
`hasMounted` ref. -/
structure SessionState where
  lastSavedData : Option Snapshot := none
  isSaving : Bool := false
  isSaveSuccessful : Bool := false
  retryCount : Nat := 0
  isAutoSavePaused : Bool := false
  hasMounted : Bool := false
deriving DecidableEq, Repr

/-- The pending debounce timer: fire time, plus the `watchedFormState` and
`retryCount` captured by the `setTimeout` closure at arm time. -/
structure DebTimer where
  fireAt : Nat
  snap : Snapshot
  rc : Nat
deriving DecidableEq, Repr

/-- A pending retry timer: fire time and the value the captured
`setRetryCount(retryCount + 1)` will set. -/
structure RetryTimer where
  fireAt : Nat
  newCount : Nat
deriving DecidableEq, Repr

/-- The whole simulated world: clock, current watched snapshot, hook state,
pending timers, both storage areas, and the observable trace (save attempts,
`onError` invocations, retry delays passed to `setTimeout`). -/
structure Machine where
  now : Nat := 0
  current : Option Snapshot := none
  st : SessionState := {}
  debounce : Option DebTimer := none
  retries : List RetryTimer := []
  localStore : List (String × String) := []
  sessionStore : List (String × String) := []
  attempts : List Snapshot := []
  errors : List String := []
  scheduledRetryDelays : List Nat := []
  mounted : Bool := true
deriving DecidableEq, Repr

/-- The freshly mounted machine. -/
def initialMachine : Machine := {}

/-- The unchanged-data check of the effect:
`lastSavedData && JSON.stringify(lastSavedData) === JSON.stringify(watchedFormState)`. -/
def unchangedData (last : Option Snapshot) (s : Snapshot) : Bool :=
  match last with
  | none => false
  | some l => jsonStringify l == jsonStringify s

/-- The change gate: the early-return prefix of the `useEffect` body, in source
order (missing state or key or paused; empty object; first-mount consumption
with optional skip; unchanged data).  Returns the updated state (the
`hasMounted` ref may be consumed) and the snapshot to debounce, `none`
meaning skip. -/
def gateStep (cfg : Config) (current : Option Snapshot) (st : SessionState) :
    SessionState × Option Snapshot :=
  match current with
  | none => (st, none)
  | some s =>
    if cfg.formKey = "" ∨ st.isAutoSavePaused then (st, none)
    else if s.isEmpty then (st, none)
    else if st.hasMounted = false then
      let st1 := { st with hasMounted := true }
      if cfg.skipInitialSave then (st1, none)
      else if unchangedData st1.lastSavedData s then (st1, none)
      else (st1, some s)
    else if unchangedData st.lastSavedData s then (st, none)
    else (st, some s)

/-- One run of the `useEffect`: the cleanup of the previous run clears the
previous debounce timer, then the gate decides whether to arm a new one for
`debounceTime` from now, capturing the current snapshot and retry count. -/
def runEffect (cfg : Config) (m : Machine) : Machine :=
  let m0 := { m with debounce := none }
  match gateStep cfg m0.current m0.st with
  | (st1, none) => { m0 with st := st1 }
  | (st1, some s) =>
    { m0 with st := st1,
              debounce := some ⟨m0.now + cfg.debounceTime, s, st1.retryCount⟩ }

/-- The dependencies of the effect that can change at runtime and are compared
by value (`retryCount`, `isAutoSavePaused`); a new `watchedFormState` object is
always a dependency change and is handled at the event level. -/
def depsOf (m : Machine) : Nat × Bool :=
  (m.st.retryCount, m.st.isAutoSavePaused)

/-- Write the serialized snapshot under the form key into the storage area the
source's ternary selects (`localStorage` when the type is `"localStorage"`,
otherwise `sessionStorage`). -/
def writeStore (cfg : Config) (m : Machine) (s : Snapshot) : Machine :=
  if cfg.storageType = .localStorage then
    { m with localStore := (cfg.formKey, jsonStringify s) :: m.localStore }
  else
    { m with sessionStore := (cfg.formKey, jsonStringify s) :: m.sessionStore }

/-- Outcome of the body of the `try` block for the n-th attempt: the
`saveFunction` call when the target is `api` and one was supplied, otherwise
the `storage.setItem` call. -/
def saveOutcome (cfg : Config) (env : Env) (idx : Nat) : Except String Unit :=
  if cfg.storageType = .api ∧ cfg.hasSaveFunction = true then env.apiResult idx
  else env.storageResult idx

/-- The debounced save callback, translated from the `setTimeout` body of the
effect: set the transient flags, attempt the save, on success record the data
and reset the retry count, on failure log the error through `onError` and
either schedule one retry after `2 ^ retryCount * 1000` ms or pause; finally
clear `isSaving`.  `s` and `rc` are the closure-captured snapshot and retry
count. -/
def doSave (cfg : Config) (env : Env) (m : Machine) (s : Snapshot) (rc : Nat) :
    Machine :=
  let idx := m.attempts.length
  let m1 := { m with attempts := m.attempts ++ [s],
                     st.isSaving := true, st.isSaveSuccessful := false }
  match saveOutcome cfg env idx with
  | .ok _ =>
    let m2 := if cfg.storageType = .api ∧ cfg.hasSaveFunction = true then m1
              else writeStore cfg m1 s
    { m2 with st.lastSavedData := some s, st.retryCount := 0,
              st.isSaveSuccessful := true, st.isSaving := false }
  | .error e =>
    let m2 := { m1 with errors := m1.errors ++ [e] }
    let m3 :=
      if rc < cfg.maxRetries then
        { m2 with retries := m2.retries ++ [⟨m2.now + 2 ^ rc * 1000, rc + 1⟩],
                  scheduledRetryDelays := m2.scheduledRetryDelays ++ [2 ^ rc * 1000] }
      else { m2 with st.isAutoSavePaused := true }
    { m3 with st.isSaving := false }

/-- The earliest pending retry timer (ties keep the earlier-scheduled one). -/
def minRetry (rs : List RetryTimer) : Option RetryTimer :=
  rs.foldl (fun acc r =>
    match acc with
    | none => some r
    | some a => if r.fireAt < a.fireAt then some r else acc) none

/-- Which timer fires next: the due timer with the smallest fire time, bounded
by `bound` when present (`none` bound means fire everything). -/
inductive Due where
  | deb
  | ret (r : RetryTimer)
deriving DecidableEq, Repr

/-- Select the next due timer under the bound. -/
def pickDue (bound : Option Nat) (m : Machine) : Option Due :=
  let inB : Nat → Bool := fun t =>
    match bound with
    | none => true
    | some b => t ≤ b
  match m.debounce, minRetry m.retries with
  | none, none => none
  | some d, none => if inB d.fireAt then some .deb else none
  | none, some r => if inB r.fireAt then some (.ret r) else none
  | some d, some r =>
    if r.fireAt ≤ d.fireAt then (if inB r.fireAt then some (.ret r) else none)
    else (if inB d.fireAt then some .deb else none)

/-- Fire the debounce timer: run the save callback; if the save changed a
dependency of the effect (`retryCount` or `isAutoSavePaused`), React re-runs
the effect. -/
def fireDebounce (cfg : Config) (env : Env) (m : Machine) : Machine :=
  match m.debounce with
  | none => m
  | some d =>
    let m0 := { m with now := d.fireAt, debounce := none }
    let before := depsOf m0
    let m1 := doSave cfg env m0 d.snap d.rc
    if depsOf m1 ≠ before then runEffect cfg m1 else m1

/-- Fire a retry timer: its closure sets `retryCount` to the captured value
plus one; a state change on a mounted component re-runs the effect.  On an
unmounted component the `setState` is a no-op (this raw `setTimeout` is never
cleared by the source). -/
def fireRetry (cfg : Config) (r : RetryTimer) (m : Machine) : Machine :=
  let m0 := { m with now := r.fireAt, retries := m.retries.erase r }
  if m0.mounted then
    if m0.st.retryCount ≠ r.newCount then
      runEffect cfg { m0 with st.retryCount := r.newCount }
    else { m0 with st.retryCount := r.newCount }
  else m0

/-- Fire all due timers in time order, with fuel. -/
def fireDue (cfg : Config) (env : Env) : Nat → Option Nat → Machine → Machine
  | 0, _, m => m
  | fuel + 1, bound, m =>
    match pickDue bound m with
    | none => m
    | some .deb => fireDue cfg env fuel bound (fireDebounce cfg env m)
    | some (.ret r) => fireDue cfg env fuel bound (fireRetry cfg r m)

/-- External stimuli: a re-render with a (new) watched snapshot, a manual
`resumeAutoSave()` call, and unmounting the component. -/
inductive Event where
  | change (s : Option Snapshot)
  | resume
  | unmount
deriving DecidableEq, Repr

/-- An external event with its arrival time. -/
structure TimedEvent where
  time : Nat
  ev : Event
deriving DecidableEq, Repr

/-- The `resumeAutoSave` callback: `setRetryCount(0)` and
`setIsAutoSavePaused(false)`; when either value actually changes, the state
update re-renders and re-runs the effect. -/
def applyResume (cfg : Config) (m : Machine) : Machine :=
  if m.mounted then
    if m.st.retryCount ≠ 0 ∨ m.st.isAutoSavePaused = true then
      runEffect cfg { m with st.retryCount := 0, st.isAutoSavePaused := false }
    else m
  else m

/-- Handle one external event: first fire every timer due before it, then
apply it.  A change always re-runs the effect (a fresh object is never
reference-equal to the previous dependency); unmounting runs the effect
cleanup, clearing the debounce timer. -/
def handleEvent (cfg : Config) (env : Env) (fuel : Nat) (m : Machine)
    (te : TimedEvent) : Machine :=
  let m0 := fireDue cfg env fuel (some te.time) m
  let m1 := { m0 with now := te.time }
  match te.ev with
  | .change s =>
    if m1.mounted then runEffect cfg { m1 with current := s }
    else { m1 with current := s }
  | .resume => applyResume cfg m1
  | .unmount => { m1 with debounce := none, mounted := false }

/-- Run a whole scenario: deliver the events in order, then let every
remaining timer fire. -/
def runScenario (cfg : Config) (env : Env) (fuel : Nat)
    (events : List TimedEvent) : Machine :=
  fireDue cfg env fuel none (events.foldl (handleEvent cfg env fuel) initialMachine)

/-- Result of `restoreFormData()`: `null`, a parsed snapshot, or a thrown
exception. -/
inductive RestoreResult where
  | nil
  | val (s : Snapshot)
  | thrown
deriving DecidableEq, Repr

/-- The `restoreFormData` function: `null` for the `api` target, otherwise read
the entry under the key from the selected storage; a missing (or empty, hence
falsy) entry gives `null`, and the entry is otherwise passed to `JSON.parse`,
whose failure propagates as an exception. -/
def restoreFormData (cfg : Config) (m : Machine) : RestoreResult :=
  if cfg.storageType = .api then .nil
  else
    let store := if cfg.storageType = .localStorage then m.localStore
                 else m.sessionStore
    match List.lookup cfg.formKey store with
    | none => .nil
    | some str =>
      if str = "" then .nil
      else
        match jsonParse str with
        | some s => .val s
        | none => .thrown

/-- Modelled from the spec: the diagnostic warning emitted once at mount when
neither `formData` nor `control` is configured.  The warning emission itself is
not in the sources under `src` (only `tests/edgeCases.test.ts` asserts it); per
the spec it is a single non-fatal console notice and the session stays inert. -/
def mountWarnings (hasFormData : Bool) (hasControl : Bool) : Nat :=
  if hasFormData = false ∧ hasControl = false then 1 else 0

/-! ### Generic lemmas about the scheduler -/

/-- A machine without pending timers is left unchanged by the scheduler. -/
theorem fireDue_no_timers (cfg : Config) (env : Env) (fuel : Nat) (bound : Option Nat)
    (m : Machine) (h1 : m.debounce = none) (h2 : m.retries = []) :
    fireDue cfg env fuel bound m = m := by
  cases fuel with
  | zero => rfl
  | succ n => simp [fireDue, pickDue, minRetry, h1, h2]

/-- When no timer is due under the bound, the scheduler is the identity. -/
theorem fireDue_pickDue_none (cfg : Config) (env : Env) (fuel : Nat) (bound : Option Nat)
    (m : Machine) (h : pickDue bound m = none) :
    fireDue cfg env fuel bound m = m := by
  cases fuel with
  | zero => rfl
  | succ n => simp [fireDue, h]

/-- Unfolding step of the scheduler when the debounce timer is due next. -/
theorem fireDue_succ_deb (cfg : Config) (env : Env) (n : Nat) (bound : Option Nat)
    (m : Machine) (h : pickDue bound m = some .deb) :
    fireDue cfg env (n + 1) bound m = fireDue cfg env n bound (fireDebounce cfg env m) := by
  simp [fireDue, h]

/-- Unfolding step of the scheduler when a retry timer is due next. -/
theorem fireDue_succ_ret (cfg : Config) (env : Env) (n : Nat) (bound : Option Nat)
    (m : Machine) (r : RetryTimer) (h : pickDue bound m = some (.ret r)) :
    fireDue cfg env (n + 1) bound m = fireDue cfg env n bound (fireRetry cfg r m) := by
  simp [fireDue, h]

/-- The effect never touches the pending retry timers (only `clearTimeout` of
the debounce handle appears in the effect cleanup). -/
theorem runEffect_retries (cfg : Config) (m : Machine) :
    (runEffect cfg m).retries = m.retries := by
  unfold runEffect
  rcases h : gateStep cfg m.current m.st with ⟨st1, o⟩
  cases o <;> simp [h]

/-- The effect never records a save attempt by itself. -/
theorem runEffect_attempts (cfg : Config) (m : Machine) :
    (runEffect cfg m).attempts = m.attempts := by
  unfold runEffect
  rcases h : gateStep cfg m.current m.st with ⟨st1, o⟩
  cases o <;> simp [h]

/-- The gate touches no state apart from the `hasMounted` ref. -/
theorem gateStep_st (cfg : Config) (cur : Option Snapshot) (st : SessionState) :
    (gateStep cfg cur st).1 = st ∨ (gateStep cfg cur st).1 = { st with hasMounted := true } := by
  unfold gateStep
  cases cur with
  | none => exact Or.inl rfl
  | some s =>
    split_ifs <;> try simp
    all_goals (split_ifs <;> simp)

/-- The unchanged-data check succeeds exactly on stringify-equal data. -/
theorem unchangedData_iff (last : Option Snapshot) (s : Snapshot) :
    unchangedData last s = true ↔
      ∃ l, last = some l ∧ jsonStringify l = jsonStringify s := by
  cases last with
  | none => simp [unchangedData]
  | some l => simp [unchangedData]

/-! ### The JSON model round-trips on what the hook writes -/

/-- Parsing an escaped string body plus closing quote recovers the body. -/
theorem parseStringAux_escList (cs : List Char) (rest : List Char) :
    parseStringAux (escList cs ++ '"' :: rest) = some (cs, rest) := by
  induction cs with
  | nil =>
    simp only [escList, List.nil_append]
    unfold parseStringAux
    rw [if_pos rfl]
  | cons c cs ih =>
    by_cases h : c = '"' ∨ c = '\\'
    · have he : escList (c :: cs) ++ '"' :: rest = '\\' :: c :: (escList cs ++ '"' :: rest) := by
        simp [escList, escChar, h]
      rw [he]
      show (match parseStringAux (escList cs ++ '"' :: rest) with
            | none => none
            | some p => some (c :: p.1, p.2)) = some (c :: cs, rest)
      rw [ih]
    · push_neg at h
      have he : escList (c :: cs) ++ '"' :: rest = c :: (escList cs ++ '"' :: rest) := by
        simp [escList, escChar, h.1, h.2]
      rw [he]
      unfold parseStringAux
      rw [if_neg h.1, if_neg h.2, ih]

/-- Parsing the characters of one serialized field recovers the field. -/
theorem parsePair_pairChars (p : String × String) (rest : List Char) :
    parsePair (pairChars p ++ rest) = some (p, rest) := by
  obtain ⟨k, v⟩ := p
  have h1 : pairChars (k, v) ++ rest =
      '"' :: (escList k.data ++ '"' :: (':' :: '"' :: (escList v.data ++ '"' :: rest))) := by
    simp [pairChars, quoteChars]
  rw [h1]
  simp [parsePair, parseStringAux_escList]

/-- Parsing the characters of a nonempty serialized field list followed by a
closing brace recovers the field list, for any sufficient fuel. -/
theorem parseFieldsAux_fieldsChars (snap : Snapshot) :
    ∀ (fuel : Nat), snap ≠ [] → snap.length ≤ fuel → ∀ (rest2 : List Char),
      parseFieldsAux fuel (fieldsChars snap ++ '}' :: rest2) = some (snap, '}' :: rest2) := by
  induction snap with
  | nil => intro fuel h; exact absurd rfl h
  | cons kv t ih =>
    intro fuel _ hlen rest2
    cases fuel with
    | zero => simp at hlen
    | succ f =>
      cases t with
      | nil =>
        show parseFieldsAux (f + 1) (pairChars kv ++ '}' :: rest2) = _
        unfold parseFieldsAux
        rw [parsePair_pairChars]
        simp
      | cons q t2 =>
        have h2 : fieldsChars (kv :: q :: t2) ++ '}' :: rest2 =
            pairChars kv ++ ',' :: (fieldsChars (q :: t2) ++ '}' :: rest2) := by
          simp [fieldsChars]
        rw [h2]
        unfold parseFieldsAux
        rw [parsePair_pairChars]
        have h3 : parseFieldsAux f (fieldsChars (q :: t2) ++ '}' :: rest2) =
            some (q :: t2, '}' :: rest2) := by
          refine ih f (by simp) ?_ rest2
          simp only [List.length_cons] at hlen ⊢
          omega
        simp [h3]

/-- A nonempty serialized field list starts with a quote. -/
theorem fieldsChars_cons_head (p : String × String) (t : Snapshot) :
    ∃ z, fieldsChars (p :: t) = '"' :: z := by
  cases t <;> simp [fieldsChars, pairChars, quoteChars]

/-- Serialization produces at least one character per field. -/
theorem length_le_fieldsChars (snap : Snapshot) :
    snap.length ≤ (fieldsChars snap).length := by
  induction snap with
  | nil => simp [fieldsChars]
  | cons p t ih =>
    cases t with
    | nil => simp [fieldsChars, pairChars, quoteChars]
    | cons q t2 =>
      have h2 : fieldsChars (p :: q :: t2) = pairChars p ++ ',' :: fieldsChars (q :: t2) := rfl
      rw [h2]
      simp only [List.length_cons, List.length_append, List.length_cons] at *
      have h3 : 1 ≤ (pairChars p).length := by simp [pairChars, quoteChars]
      omega

/-- The JSON model round-trips: parsing the serialization of any snapshot
recovers exactly that snapshot (this is the well-formedness fact behind the
hook's `restoreFormData` after a successful key-value save). -/
theorem jsonParse_jsonStringify (snap : Snapshot) :
    jsonParse (jsonStringify snap) = some snap := by
  cases snap with
  | nil => rfl
  | cons p t =>
    obtain ⟨z, hz⟩ := fieldsChars_cons_head p t
    show (if (fieldsChars (p :: t) ++ ['}'] : List Char) = ['}'] then some []
          else
            match parseFieldsAux (fieldsChars (p :: t) ++ ['}']).length
                (fieldsChars (p :: t) ++ ['}']) with
            | none => none
            | some (fs, rest3) => if rest3 = ['}'] then some fs else none) = some (p :: t)
    have hne : (fieldsChars (p :: t) ++ ['}'] : List Char) ≠ ['}'] := by
      rw [hz]; simp
    rw [if_neg hne]
    have hlen : (p :: t).length ≤ (fieldsChars (p :: t) ++ ['}']).length :=
      le_trans (length_le_fieldsChars (p :: t)) (by simp)
    have hfields : parseFieldsAux (fieldsChars (p :: t) ++ ['}']).length
        (fieldsChars (p :: t) ++ '}' :: []) = some (p :: t, '}' :: []) :=
      parseFieldsAux_fieldsChars (p :: t) _ (by simp) hlen []
    rw [show (fieldsChars (p :: t) ++ ['}'] : List Char) = fieldsChars (p :: t) ++ '}' :: [] from rfl,
      hfields]
    simp

/-- The unchanged-data check fails exactly when no stringify-equal last save exists. -/
theorem unchangedData_eq_false_iff (last : Option Snapshot) (s : Snapshot) :
    unchangedData last s = false ↔
      ∀ l, last = some l → ¬ jsonStringify l = jsonStringify s := by
  cases last with
  | none => simp [unchangedData]
  | some l => simp [unchangedData]

/-! ### Claim C2: the change gate -/

/-- Claim C2, counterexample.  The claim lists four skip conditions and states
that the gate proceeds whenever none of them holds, and that no snapshot after
the first observed one is ever treated as "first".  Both parts fail on the
code.  First conjunct: with an empty `formKey`, a nonempty snapshot, a
non-paused session whose first-mount suppression is already consumed and with
no last-saved data — so none of the four claimed conditions holds — the gate
still skips (the source also early-returns on `!formKey`).  Second and third
conjuncts: with `skipInitialSave` enabled, a first observed snapshot that is
empty returns before the `hasMounted` ref is consumed, and the second observed
snapshot is then still treated as "first" and suppressed. -/
theorem C2_counterexample :
    gateStep { formKey := "" } (some [("a", "1")]) { hasMounted := true } =
      ({ hasMounted := true }, none)
    ∧ gateStep { formKey := "f", skipInitialSave := true } (some []) {} = ({}, none)
    ∧ gateStep { formKey := "f", skipInitialSave := true } (some [("a", "1")]) {} =
      ({ hasMounted := true }, none) := by
  refine ⟨rfl, rfl, rfl⟩

/-- Claim C2, amended.  The gate skips exactly when the snapshot is absent, or
it has zero fields, or the session is paused, or the form key is empty, or the
first-mount suppression is still unconsumed while `skipInitialSave` is on, or
the last saved snapshot is present and stringify-equal; otherwise it schedules
exactly the observed snapshot.  The suppression is consumed (at most once) by
the first snapshot passing the presence, key, pause and emptiness checks. -/
theorem C2_gate_characterization (cfg : Config) (cur : Option Snapshot)
    (st : SessionState) :
    ((gateStep cfg cur st).2 = none ↔
      cur = none ∨
        ∃ s, cur = some s ∧
          (s = [] ∨ st.isAutoSavePaused = true ∨ cfg.formKey = "" ∨
            (st.hasMounted = false ∧ cfg.skipInitialSave = true) ∨
            (∃ l, st.lastSavedData = some l ∧ jsonStringify l = jsonStringify s)))
    ∧ ((gateStep cfg cur st).2 = none ∨ (gateStep cfg cur st).2 = cur)
    ∧ ((gateStep cfg cur st).1.hasMounted = true ↔
      (st.hasMounted = true ∨
        ∃ s, cur = some s ∧ s ≠ [] ∧ st.isAutoSavePaused = false ∧ cfg.formKey ≠ "")) := by
  cases cur with
  | none => simp [gateStep]
  | some s =>
    by_cases hk : cfg.formKey = "" <;>
    by_cases hp : st.isAutoSavePaused = true <;>
    by_cases hs : s = [] <;>
    by_cases hm : st.hasMounted = false <;>
    by_cases hsk : cfg.skipInitialSave = true <;>
    by_cases hu : unchangedData st.lastSavedData s = true <;>
      (try simp_all [gateStep]) <;>
      (try simp_all [unchangedData_iff, unchangedData_eq_false_iff])

/-! ### Claim C10: unchanged-data skip is JSON.stringify string equality -/

/-- Claim C10: when a last saved snapshot is present (and the other gate
conditions let the snapshot through), the unchanged-data skip fires exactly
when the JSON serializations are equal as strings; consequently two snapshots
with the same fields in different key order — a permutation, as the second
and third conjuncts witness — are treated as changed and a save is
scheduled. -/
theorem C10_unchanged_skip_by_stringify :
    (∀ (cfg : Config) (st : SessionState) (l s : Snapshot),
      cfg.formKey ≠ "" → st.isAutoSavePaused = false → st.hasMounted = true →
      st.lastSavedData = some l → s ≠ [] →
      ((gateStep cfg (some s) st).2 = none ↔ jsonStringify l = jsonStringify s))
    ∧ ([("a", "1"), ("b", "2")] : Snapshot).Perm [("b", "2"), ("a", "1")]
    ∧ (gateStep { formKey := "f" } (some [("b", "2"), ("a", "1")])
        { lastSavedData := some [("a", "1"), ("b", "2")], hasMounted := true }).2 =
      some [("b", "2"), ("a", "1")] := by
  refine ⟨?_, by decide, rfl⟩
  intro cfg st l s hk hp hm hl hs
  by_cases he : jsonStringify l = jsonStringify s <;>
    simp [gateStep, hk, hp, hm, hl, hs, unchangedData, he]

/-- Claim C10, witness at a concrete input. -/
theorem C10_unchanged_skip_by_stringify_witness :
    (gateStep { formKey := "f" } (some [("a", "1")])
        { lastSavedData := some [("a", "1")], hasMounted := true }).2 = none ↔
      jsonStringify [("a", "1")] = jsonStringify [("a", "1")] :=
  C10_unchanged_skip_by_stringify.1 { formKey := "f" }
    { lastSavedData := some [("a", "1")], hasMounted := true } [("a", "1")] [("a", "1")]
    (by decide) rfl rfl rfl (by decide)

/-! ### Claim C7: failure handling in the save path -/

/-- Claim C7: the save callback is a total function of the machine (nothing
escapes it as an exception — the `catch`/`finally` of the source are modelled
by the failure branch of `doSave`); in all cases `isSaving` ends `false`; and
when the attempt's outcome is a failure, the raw error is appended to the
`onError` log, the last saved snapshot is left unchanged, and the success flag
ends `false`. -/
theorem C7_failure_handling (cfg : Config) (env : Env) (m : Machine) (s : Snapshot)
    (rc : Nat) (e : String) :
    (doSave cfg env m s rc).st.isSaving = false
    ∧ (saveOutcome cfg env m.attempts.length = .error e →
        (doSave cfg env m s rc).errors = m.errors ++ [e]
        ∧ (doSave cfg env m s rc).st.lastSavedData = m.st.lastSavedData
        ∧ (doSave cfg env m s rc).st.isSaveSuccessful = false) := by
  cases h : saveOutcome cfg env m.attempts.length with
  | ok u =>
    constructor
    · simp only [doSave, h, writeStore]
    · intro he
      exact Except.noConfusion he
  | error e2 =>
    constructor
    · simp only [doSave, h]
    · intro he
      have he2 : e2 = e := by
        cases he
        rfl
      subst he2
      simp only [doSave, h]
      split_ifs <;> simp

/-- Claim C7, witness: a failing remote save at a concrete input. -/
theorem C7_failure_handling_witness :
    (doSave { formKey := "f", storageType := .api, hasSaveFunction := true }
        { apiResult := fun _ => .error "boom", storageResult := fun _ => .ok () }
        initialMachine [("a", "1")] 0).st.isSaving = false
    ∧ (saveOutcome { formKey := "f", storageType := .api, hasSaveFunction := true }
        { apiResult := fun _ => .error "boom", storageResult := fun _ => .ok () }
        initialMachine.attempts.length = .error "boom" →
        (doSave { formKey := "f", storageType := .api, hasSaveFunction := true }
            { apiResult := fun _ => .error "boom", storageResult := fun _ => .ok () }
            initialMachine [("a", "1")] 0).errors = initialMachine.errors ++ ["boom"]
        ∧ (doSave { formKey := "f", storageType := .api, hasSaveFunction := true }
            { apiResult := fun _ => .error "boom", storageResult := fun _ => .ok () }
            initialMachine [("a", "1")] 0).st.lastSavedData = initialMachine.st.lastSavedData
        ∧ (doSave { formKey := "f", storageType := .api, hasSaveFunction := true }
            { apiResult := fun _ => .error "boom", storageResult := fun _ => .ok () }
            initialMachine [("a", "1")] 0).st.isSaveSuccessful = false) :=
  C7_failure_handling { formKey := "f", storageType := .api, hasSaveFunction := true }
    { apiResult := fun _ => .error "boom", storageResult := fun _ => .ok () }
    initialMachine [("a", "1")] 0 "boom"

/-! ### Claim C4: remote target without a save function -/

/-- An environment in which every save attempt succeeds. -/
def envAllOk : Env := { apiResult := fun _ => .ok (), storageResult := fun _ => .ok () }

/-- The configuration of the `api`-without-`saveFunction` scenario
(`tests/api.test.ts`, "API Storage Without Save Function"). -/
def noFnCfg : Config :=
  { formKey := "no-api-saveFunc", storageType := .api, hasSaveFunction := false }

/-- The run of that scenario: one snapshot, debounce elapses. -/
def c4Run : Machine :=
  runScenario noFnCfg envAllOk 20 [⟨0, .change (some [("test", "noApiFunc")])⟩]

/-- Claim C4: what the code actually does at the failing input.  With the
`api` target and no save function configured, the condition
`storageType === "api" && saveFunction` is false, so the firing save falls
through to the key-value branch, whose ternary selects `sessionStorage`: the
snapshot is serialized and written there, `lastSavedData` is updated, the
retry count is reset and the success flag is set — not the silent no-op with
no write and no state change that the claim (and the test's comment) demand. -/
theorem C4_api_without_function_behavior :
    c4Run.sessionStore = [("no-api-saveFunc", jsonStringify [("test", "noApiFunc")])]
    ∧ c4Run.st.lastSavedData = some [("test", "noApiFunc")]
    ∧ c4Run.st.isSaveSuccessful = true
    ∧ c4Run.attempts = [[("test", "noApiFunc")]]
    ∧ c4Run.errors = [] :=
  ⟨rfl, rfl, rfl, rfl, rfl⟩

/-! ### Claim C5: restore never throws -/

/-- A key-value configuration under the key "k" (defaults: `localStorage`). -/
def c5Cfg : Config := { formKey := "k" }

/-- A machine whose stored entry under "k" is the malformed string `"{"`. -/
def c5BadMachine : Machine := { localStore := [("k", "\x7b")] }

/-- Claim C5, counterexample: when deserialization of the stored entry fails,
`restoreFormData` does not return `null` — the `JSON.parse` call is not
guarded, so the parse error propagates as a thrown exception. -/
theorem C5_counterexample : restoreFormData c5Cfg c5BadMachine = .thrown := rfl

/-- The serialization of a snapshot is never the empty string. -/
theorem jsonStringify_ne_empty (snap : Snapshot) : jsonStringify snap ≠ "" := by
  intro h
  have hd : (jsonStringify snap).data = ("" : String).data := by rw [h]
  simp [jsonStringify] at hd

/-- Claim C5, amended: `restoreFormData` returns `null` when the target is
`api` or no entry exists under the key (or the entry is empty, hence falsy);
when the entry is the JSON serialization of a snapshot it returns exactly that
snapshot; but when the stored entry is present and fails to parse, the
exception propagates — restore is not "never throws". -/
theorem C5_restore_amended (cfg : Config) (m : Machine) (s : Snapshot) :
    (cfg.storageType = .api → restoreFormData cfg m = .nil)
    ∧ (cfg.storageType ≠ .api →
        List.lookup cfg.formKey
          (if cfg.storageType = .localStorage then m.localStore else m.sessionStore) =
          none →
        restoreFormData cfg m = .nil)
    ∧ (cfg.storageType ≠ .api →
        List.lookup cfg.formKey
          (if cfg.storageType = .localStorage then m.localStore else m.sessionStore) =
          some (jsonStringify s) →
        restoreFormData cfg m = .val s)
    ∧ (cfg.storageType ≠ .api → ∀ str,
        List.lookup cfg.formKey
          (if cfg.storageType = .localStorage then m.localStore else m.sessionStore) =
          some str →
        str ≠ "" → jsonParse str = none → restoreFormData cfg m = .thrown) := by
  refine ⟨?_, ?_, ?_, ?_⟩
  · intro h
    simp [restoreFormData, h]
  · intro h hl
    simp [restoreFormData, h, hl]
  · intro h hl
    simp [restoreFormData, h, hl, jsonStringify_ne_empty s, jsonParse_jsonStringify]
  · intro h str hl hne hp
    simp [restoreFormData, h, hl, hne, hp]

/-- Claim C5, witness: the three return shapes at concrete inputs. -/
theorem C5_restore_amended_witness :
    restoreFormData { formKey := "k", storageType := .api } initialMachine = .nil
    ∧ restoreFormData c5Cfg initialMachine = .nil
    ∧ restoreFormData { formKey := "k" }
        { localStore := [("k", jsonStringify [("a", "1")])] } = .val [("a", "1")]
    ∧ restoreFormData c5Cfg c5BadMachine = .thrown :=
  ⟨(C5_restore_amended { formKey := "k", storageType := .api } initialMachine []).1 rfl,
   (C5_restore_amended c5Cfg initialMachine []).2.1 (by decide) rfl,
   (C5_restore_amended { formKey := "k" }
      { localStore := [("k", jsonStringify [("a", "1")])] } [("a", "1")]).2.2.1
      (by decide) (by simp [List.lookup]),
   (C5_restore_amended c5Cfg c5BadMachine []).2.2.2 (by decide) "\x7b"
      rfl (by decide) rfl⟩

/-! ### Claim C1: retry/backoff sequence with an always-failing remote save -/

/-- A remote-save configuration with the source's defaults
(`debounceTime` 1000, `maxRetries` 3). -/
def apiCfg (k : String) : Config :=
  { formKey := k, debounceTime := 1000, storageType := .api,
    hasSaveFunction := true, maxRetries := 3, skipInitialSave := false }

/-- An environment whose remote save rejects on every attempt. -/
def envFail : Env := { apiResult := fun _ => .error "E", storageResult := fun _ => .ok () }

/-- The machine states the always-failing scenario passes through, indexed by
the number of fired timers: armed, then alternating save failures and retry
firings, ending paused after the fourth failure. -/
def c1State (p : String × String) (ps : List (String × String)) : Nat → Machine
  | 0 => { now := 0, current := some (p :: ps), st := { hasMounted := true },
           debounce := some ⟨1000, p :: ps, 0⟩ }
  | 1 => { now := 1000, current := some (p :: ps), st := { hasMounted := true },
           retries := [⟨2000, 1⟩], attempts := [p :: ps],
           errors := ["E"], scheduledRetryDelays := [1000] }
  | 2 => { now := 2000, current := some (p :: ps),
           st := { retryCount := 1, hasMounted := true },
           debounce := some ⟨3000, p :: ps, 1⟩, attempts := [p :: ps],
           errors := ["E"], scheduledRetryDelays := [1000] }
  | 3 => { now := 3000, current := some (p :: ps),
           st := { retryCount := 1, hasMounted := true },
           retries := [⟨5000, 2⟩], attempts := [p :: ps, p :: ps],
           errors := ["E", "E"], scheduledRetryDelays := [1000, 2000] }
  | 4 => { now := 5000, current := some (p :: ps),
           st := { retryCount := 2, hasMounted := true },
           debounce := some ⟨6000, p :: ps, 2⟩, attempts := [p :: ps, p :: ps],
           errors := ["E", "E"], scheduledRetryDelays := [1000, 2000] }
  | 5 => { now := 6000, current := some (p :: ps),
           st := { retryCount := 2, hasMounted := true },
           retries := [⟨10000, 3⟩], attempts := [p :: ps, p :: ps, p :: ps],
           errors := ["E", "E", "E"], scheduledRetryDelays := [1000, 2000, 4000] }
  | 6 => { now := 10000, current := some (p :: ps),
           st := { retryCount := 3, hasMounted := true },
           debounce := some ⟨11000, p :: ps, 3⟩, attempts := [p :: ps, p :: ps, p :: ps],
           errors := ["E", "E", "E"], scheduledRetryDelays := [1000, 2000, 4000] }
  | _ => { now := 11000, current := some (p :: ps),
           st := { retryCount := 3, isAutoSavePaused := true, hasMounted := true },
           attempts := [p :: ps, p :: ps, p :: ps, p :: ps],
           errors := ["E", "E", "E", "E"], scheduledRetryDelays := [1000, 2000, 4000] }

/-- The always-failing scenario: one snapshot at time 0, then quiescence. -/
def c1Run (k : String) (p : String × String) (ps : List (String × String)) : Machine :=
  runScenario (apiCfg k) envFail 20 [⟨0, .change (some (p :: ps))⟩]

/-- The full symbolic execution of the always-failing scenario. -/
theorem c1Run_eq (k : String) (hk : ¬ (k = "")) (p : String × String)
    (ps : List (String × String)) : c1Run k p ps = c1State p ps 7 := by
  have g0 : handleEvent (apiCfg k) envFail 20 initialMachine ⟨0, .change (some (p :: ps))⟩ =
      c1State p ps 0 := by
    simp [handleEvent, fireDue, pickDue, minRetry, initialMachine, runEffect, gateStep,
          apiCfg, unchangedData, hk, c1State]
  have h1 : fireDebounce (apiCfg k) envFail (c1State p ps 0) = c1State p ps 1 := by
    simp [fireDebounce, doSave, saveOutcome, depsOf, apiCfg, envFail, c1State]
  have h2 : fireRetry (apiCfg k) ⟨2000, 1⟩ (c1State p ps 1) = c1State p ps 2 := by
    simp [fireRetry, runEffect, gateStep, unchangedData, apiCfg, hk, List.erase, c1State]
  have h3 : fireDebounce (apiCfg k) envFail (c1State p ps 2) = c1State p ps 3 := by
    simp [fireDebounce, doSave, saveOutcome, depsOf, apiCfg, envFail, c1State]
  have h4 : fireRetry (apiCfg k) ⟨5000, 2⟩ (c1State p ps 3) = c1State p ps 4 := by
    simp [fireRetry, runEffect, gateStep, unchangedData, apiCfg, hk, List.erase, c1State]
  have h5 : fireDebounce (apiCfg k) envFail (c1State p ps 4) = c1State p ps 5 := by
    simp [fireDebounce, doSave, saveOutcome, depsOf, apiCfg, envFail, c1State]
  have h6 : fireRetry (apiCfg k) ⟨10000, 3⟩ (c1State p ps 5) = c1State p ps 6 := by
    simp [fireRetry, runEffect, gateStep, unchangedData, apiCfg, hk, List.erase, c1State]
  have h7 : fireDebounce (apiCfg k) envFail (c1State p ps 6) = c1State p ps 7 := by
    simp [fireDebounce, doSave, saveOutcome, depsOf, apiCfg, envFail, runEffect,
          gateStep, unchangedData, hk, c1State]
  calc c1Run k p ps
      = fireDue (apiCfg k) envFail 20 none (c1State p ps 0) := by
        show fireDue (apiCfg k) envFail 20 none
          (handleEvent (apiCfg k) envFail 20 initialMachine ⟨0, .change (some (p :: ps))⟩) = _
        rw [g0]
    _ = fireDue (apiCfg k) envFail 19 none (c1State p ps 1) := by
        rw [fireDue_succ_deb (apiCfg k) envFail 19 none (c1State p ps 0) rfl, h1]
    _ = fireDue (apiCfg k) envFail 18 none (c1State p ps 2) := by
        rw [fireDue_succ_ret (apiCfg k) envFail 18 none (c1State p ps 1) ⟨2000, 1⟩ rfl, h2]
    _ = fireDue (apiCfg k) envFail 17 none (c1State p ps 3) := by
        rw [fireDue_succ_deb (apiCfg k) envFail 17 none (c1State p ps 2) rfl, h3]
    _ = fireDue (apiCfg k) envFail 16 none (c1State p ps 4) := by
        rw [fireDue_succ_ret (apiCfg k) envFail 16 none (c1State p ps 3) ⟨5000, 2⟩ rfl, h4]
    _ = fireDue (apiCfg k) envFail 15 none (c1State p ps 5) := by
        rw [fireDue_succ_deb (apiCfg k) envFail 15 none (c1State p ps 4) rfl, h5]
    _ = fireDue (apiCfg k) envFail 14 none (c1State p ps 6) := by
        rw [fireDue_succ_ret (apiCfg k) envFail 14 none (c1State p ps 5) ⟨10000, 3⟩ rfl, h6]
    _ = fireDue (apiCfg k) envFail 13 none (c1State p ps 7) := by
        rw [fireDue_succ_deb (apiCfg k) envFail 13 none (c1State p ps 6) rfl, h7]
    _ = c1State p ps 7 := fireDue_no_timers _ _ _ _ _ rfl rfl

/-- Claim C1: with `maxRetries = 3` and a remote save failing on every
attempt, exactly four save attempts execute (the debounced one plus three
retries), each reported through `onError`; the delays passed to the retry
`setTimeout` are 1000, 2000 and 4000 ms; after the fourth failure the session
is paused with no timer pending; and a later re-render with any snapshot
produces no further attempt while paused. -/
theorem C1_retry_backoff_pause (k : String) (hk : ¬ (k = "")) (p : String × String)
    (ps : List (String × String)) :
    (c1Run k p ps).attempts = [p :: ps, p :: ps, p :: ps, p :: ps]
    ∧ (c1Run k p ps).errors = ["E", "E", "E", "E"]
    ∧ (c1Run k p ps).scheduledRetryDelays = [1000, 2000, 4000]
    ∧ (c1Run k p ps).st.isAutoSavePaused = true
    ∧ (c1Run k p ps).debounce = none
    ∧ (c1Run k p ps).retries = []
    ∧ (∀ (T : Nat) (s2 : Snapshot),
        (fireDue (apiCfg k) envFail 20 none
          (handleEvent (apiCfg k) envFail 20 (c1Run k p ps) ⟨T, .change (some s2)⟩)).attempts =
        [p :: ps, p :: ps, p :: ps, p :: ps]) := by
  rw [c1Run_eq k hk p ps]
  refine ⟨rfl, rfl, rfl, rfl, rfl, rfl, ?_⟩
  intro T s2
  have hstep : handleEvent (apiCfg k) envFail 20 (c1State p ps 7) ⟨T, .change (some s2)⟩ =
      { c1State p ps 7 with now := T, current := some s2 } := by
    unfold handleEvent
    rw [fireDue_no_timers _ _ _ _ _ rfl rfl]
    simp [runEffect, gateStep, c1State]
  rw [hstep, fireDue_no_timers _ _ _ _ _ rfl rfl]
  rfl

/-- Claim C1, witness at a concrete session. -/
theorem C1_retry_backoff_pause_witness :
    ¬ (("form" : String) = "")
    ∧ ((c1Run "form" ("a", "1") []).attempts =
        [[("a", "1")], [("a", "1")], [("a", "1")], [("a", "1")]]
      ∧ (c1Run "form" ("a", "1") []).errors = ["E", "E", "E", "E"]
      ∧ (c1Run "form" ("a", "1") []).scheduledRetryDelays = [1000, 2000, 4000]
      ∧ (c1Run "form" ("a", "1") []).st.isAutoSavePaused = true
      ∧ (c1Run "form" ("a", "1") []).debounce = none
      ∧ (c1Run "form" ("a", "1") []).retries = []
      ∧ (∀ (T : Nat) (s2 : Snapshot),
          (fireDue (apiCfg "form") envFail 20 none
            (handleEvent (apiCfg "form") envFail 20 (c1Run "form" ("a", "1") [])
              ⟨T, .change (some s2)⟩)).attempts =
          [[("a", "1")], [("a", "1")], [("a", "1")], [("a", "1")]])) :=
  ⟨by decide, C1_retry_backoff_pause "form" (by decide) ("a", "1") []⟩

/-! ### Claim C6: resume semantics -/

/-- The paused scenario followed by a bare `resumeAutoSave()` call at 20000 ms,
with no snapshot change after it. -/
def c6RunA : Machine :=
  runScenario (apiCfg "form") envFail 30
    [⟨0, .change (some [("a", "1")])⟩, ⟨20000, .resume⟩]

/-- The failing scenario with `resumeAutoSave()` called at 1500 ms, while the
first retry timer (armed at 1000 ms for 2000 ms) is still pending, and no
snapshot change after it. -/
def c6RunB : Machine :=
  runScenario (apiCfg "form") envFail 30
    [⟨0, .change (some [("a", "1")])⟩, ⟨1500, .resume⟩]

/-- Claim C6, counterexample.  First conjunct: after the session pauses
(4 attempts), a bare `resume()` with no further snapshot change leads to more
save attempts — the state change re-runs the effect, the still-unsaved current
snapshot passes the gate again and a new debounce cycle starts, so resume is
not save-free.  Second conjunct: `resume()` does not cancel the pending retry
timer — called while the first retry is pending, the timer still fires and
drives a second attempt although no qualifying change occurred after resume
(under the claim the run would stop at 1 attempt). -/
theorem C6_counterexample :
    4 < c6RunA.attempts.length ∧ 2 ≤ c6RunB.attempts.length := by
  constructor
  · have h : c6RunA.attempts.length = 8 := rfl
    omega
  · have h : c6RunB.attempts.length = 4 := rfl
    omega

/-- The effect changes no session state apart from the `hasMounted` ref. -/
theorem runEffect_st_fields (cfg : Config) (m : Machine) :
    (runEffect cfg m).st.retryCount = m.st.retryCount
    ∧ (runEffect cfg m).st.isAutoSavePaused = m.st.isAutoSavePaused
    ∧ (runEffect cfg m).st.lastSavedData = m.st.lastSavedData := by
  have hd := gateStep_st cfg m.current m.st
  unfold runEffect
  rcases hg : gateStep cfg m.current m.st with ⟨st1, o⟩
  rw [hg] at hd
  rcases hd with h | h <;> cases o <;> simp_all

/-- Claim C6, amended: on a mounted session, `resumeAutoSave()` resets the
retry count to 0 and clears the paused flag; it leaves every pending retry
timer untouched (the source never clears the retry `setTimeout`); and it
records no save attempt by itself — but it re-runs the effect, so the current
snapshot may be re-debounced and saved without any further change (the
counterexample's first run shows the subsequent attempts). -/
theorem C6_resume_amended (cfg : Config) (m : Machine) (h : m.mounted = true) :
    (applyResume cfg m).st.retryCount = 0
    ∧ (applyResume cfg m).st.isAutoSavePaused = false
    ∧ (applyResume cfg m).retries = m.retries
    ∧ (applyResume cfg m).attempts = m.attempts := by
  unfold applyResume
  rw [if_pos h]
  by_cases hc : m.st.retryCount ≠ 0 ∨ m.st.isAutoSavePaused = true
  · rw [if_pos hc]
    have h1 := runEffect_st_fields cfg { m with st.retryCount := 0, st.isAutoSavePaused := false }
    have h2 := runEffect_retries cfg { m with st.retryCount := 0, st.isAutoSavePaused := false }
    have h3 := runEffect_attempts cfg { m with st.retryCount := 0, st.isAutoSavePaused := false }
    exact ⟨by simp [h1.1], by simp [h1.2.1], by simp [h2], by simp [h3]⟩
  · rw [if_neg hc]
    push_neg at hc
    exact ⟨hc.1, by simpa using hc.2, rfl, rfl⟩

/-- Claim C6, witness: resume applied to the concrete paused machine. -/
theorem C6_resume_amended_witness :
    (c1Run "form" ("a", "1") []).mounted = true
    ∧ (applyResume (apiCfg "form") (c1Run "form" ("a", "1") [])).st.retryCount = 0
    ∧ (applyResume (apiCfg "form") (c1Run "form" ("a", "1") [])).st.isAutoSavePaused = false
    ∧ (applyResume (apiCfg "form") (c1Run "form" ("a", "1") [])).retries =
        (c1Run "form" ("a", "1") []).retries
    ∧ (applyResume (apiCfg "form") (c1Run "form" ("a", "1") [])).attempts =
        (c1Run "form" ("a", "1") []).attempts :=
  ⟨rfl, C6_resume_amended (apiCfg "form") (c1Run "form" ("a", "1") []) rfl⟩

/-! ### Claims C3 and C9: debounce collapsing and teardown cancellation -/

/-- A key-value configuration with the given key and debounce time
(defaults otherwise: `localStorage`, `maxRetries` 3, no initial skip). -/
def lsCfg (k : String) (d : Nat) : Config := { formKey := k, debounceTime := d }

/-- The machine one change event leaves behind while its debounce timer is
pending: snapshot observed, first-mount consumed, timer armed for `t + d`. -/
def armedM (_k : String) (d t : Nat) (s : Snapshot) : Machine :=
  { now := t, current := some s, st := { hasMounted := true },
    debounce := some ⟨t + d, s, 0⟩, localStore := [], sessionStore := [] }

/-- The machine after the armed timer fires against a succeeding key-value
backend: one attempt, entry written, last saved data set. -/
def savedM (k : String) (d t : Nat) (s : Snapshot) : Machine :=
  { now := t + d, current := some s,
    st := { lastSavedData := some s, isSaveSuccessful := true, hasMounted := true },
    localStore := [(k, jsonStringify s)], attempts := [s] }

/-- The first change on a fresh session arms the debounce timer. -/
theorem handle_first_change (k : String) (hk : ¬ (k = "")) (d fuel t0 : Nat)
    (p : String × String) (ps : List (String × String)) :
    handleEvent (lsCfg k d) envAllOk fuel initialMachine
      ⟨t0, .change (some (p :: ps))⟩ = armedM k d t0 (p :: ps) := by
  unfold handleEvent
  rw [fireDue_no_timers _ _ _ _ _ rfl rfl]
  simp [runEffect, gateStep, unchangedData, lsCfg, hk, armedM, initialMachine]

/-- A change arriving strictly less than `d` after the previous one cancels
the pending timer and re-arms it with the new snapshot. -/
theorem handle_change_armed (k : String) (hk : ¬ (k = "")) (d fuel t g : Nat)
    (hg : g < d) (s s2 : Snapshot) (hs2 : s2 ≠ []) :
    handleEvent (lsCfg k d) envAllOk fuel (armedM k d t s) ⟨t + g, .change (some s2)⟩ =
      armedM k d (t + g) s2 := by
  unfold handleEvent
  have hnd : ¬ (t + d ≤ t + g) := by omega
  have hpick : pickDue (some (t + g)) (armedM k d t s) = none := by
    simp [pickDue, minRetry, armedM, hnd]
  rw [fireDue_pickDue_none _ _ _ _ _ hpick]
  obtain ⟨c, cs, rfl⟩ := List.exists_cons_of_ne_nil hs2
  simp [runEffect, gateStep, unchangedData, lsCfg, hk, armedM]

/-- The events of a gap-encoded change sequence: each entry is the delay since
the previous change and the new snapshot. -/
def changeEvents : Nat → List (Nat × Snapshot) → List TimedEvent
  | _, [] => []
  | t0, (g, s) :: rest => ⟨t0 + g, .change (some s)⟩ :: changeEvents (t0 + g) rest

/-- The arrival time of the last change of a gap-encoded sequence. -/
def endTime (t : Nat) (rest : List (Nat × Snapshot)) : Nat :=
  rest.foldl (fun a pr => a + pr.1) t

/-- The last snapshot of a gap-encoded sequence (or the starting one). -/
def lastSnap (s : Snapshot) (rest : List (Nat × Snapshot)) : Snapshot :=
  rest.foldl (fun _ pr => pr.2) s

/-- Folding a within-window change sequence over an armed machine keeps it
armed: each change cancels the previous timer and arms its own. -/
theorem foldl_changes (k : String) (hk : ¬ (k = "")) (d fuel : Nat)
    (rest : List (Nat × Snapshot)) :
    ∀ (t : Nat) (s : Snapshot), (∀ pr ∈ rest, pr.1 < d ∧ pr.2 ≠ []) →
      List.foldl (handleEvent (lsCfg k d) envAllOk fuel) (armedM k d t s)
        (changeEvents t rest) =
      armedM k d (endTime t rest) (lastSnap s rest) := by
  induction rest with
  | nil => intro t s _; rfl
  | cons pr rest ih =>
    intro t s h
    obtain ⟨g, s2⟩ := pr
    have h1 := h (g, s2) (List.mem_cons_self _ _)
    show List.foldl (handleEvent (lsCfg k d) envAllOk fuel)
        (handleEvent (lsCfg k d) envAllOk fuel (armedM k d t s)
          ⟨t + g, .change (some s2)⟩)
        (changeEvents (t + g) rest) = _
    rw [handle_change_armed k hk d fuel t g h1.1 s s2 h1.2]
    exact ih (t + g) s2 (fun q hq => h q (List.mem_cons_of_mem _ hq))

/-- Letting the surviving timer fire performs exactly one successful save of
the snapshot captured at arm time. -/
theorem finish_armed (k : String) (d t : Nat) (s : Snapshot) :
    fireDue (lsCfg k d) envAllOk 20 none (armedM k d t s) = savedM k d t s := by
  rw [fireDue_succ_deb (lsCfg k d) envAllOk 19 none (armedM k d t s) rfl]
  have hfd : fireDebounce (lsCfg k d) envAllOk (armedM k d t s) = savedM k d t s := by
    simp [fireDebounce, doSave, saveOutcome, depsOf, writeStore, lsCfg, envAllOk,
          armedM, savedM]
  rw [hfd, fireDue_no_timers _ _ _ _ _ rfl rfl]

/-- Claim C3: for every sequence of snapshot changes (nonempty snapshots, a
nonempty key), each arriving strictly less than `debounceTime` after the
previous one, exactly one save executes, and the value it persists under the
key is the serialization of the last snapshot in the sequence. -/
theorem C3_debounce_collapse (k : String) (hk : ¬ (k = "")) (d t0 : Nat)
    (p : String × String) (ps : List (String × String))
    (rest : List (Nat × Snapshot)) (hrest : ∀ pr ∈ rest, pr.1 < d ∧ pr.2 ≠ []) :
    (runScenario (lsCfg k d) envAllOk 20
        (⟨t0, .change (some (p :: ps))⟩ :: changeEvents t0 rest)).attempts =
      [lastSnap (p :: ps) rest]
    ∧ List.lookup k
        (runScenario (lsCfg k d) envAllOk 20
          (⟨t0, .change (some (p :: ps))⟩ :: changeEvents t0 rest)).localStore =
      some (jsonStringify (lastSnap (p :: ps) rest)) := by
  have hrun : runScenario (lsCfg k d) envAllOk 20
      (⟨t0, .change (some (p :: ps))⟩ :: changeEvents t0 rest) =
      savedM k d (endTime t0 rest) (lastSnap (p :: ps) rest) := by
    show fireDue (lsCfg k d) envAllOk 20 none
      (List.foldl (handleEvent (lsCfg k d) envAllOk 20)
        (handleEvent (lsCfg k d) envAllOk 20 initialMachine
          ⟨t0, .change (some (p :: ps))⟩)
        (changeEvents t0 rest)) = _
    rw [handle_first_change k hk d 20 t0 p ps,
        foldl_changes k hk d 20 rest t0 (p :: ps) hrest,
        finish_armed k d (endTime t0 rest) (lastSnap (p :: ps) rest)]
  rw [hrun]
  exact ⟨rfl, by simp [savedM, List.lookup]⟩

/-- Claim C3, witness: three rapid changes collapse to one save of the last. -/
theorem C3_debounce_collapse_witness :
    (runScenario (lsCfg "form" 1000) envAllOk 20
        (⟨0, .change (some [("a", "1")])⟩ ::
          changeEvents 0 [(500, [("a", "2")]), (400, [("a", "3")])])).attempts =
      [lastSnap [("a", "1")] [(500, [("a", "2")]), (400, [("a", "3")])]]
    ∧ List.lookup "form"
        (runScenario (lsCfg "form" 1000) envAllOk 20
          (⟨0, .change (some [("a", "1")])⟩ ::
            changeEvents 0 [(500, [("a", "2")]), (400, [("a", "3")])])).localStore =
      some (jsonStringify (lastSnap [("a", "1")] [(500, [("a", "2")]), (400, [("a", "3")])])) :=
  C3_debounce_collapse "form" (by decide) 1000 0 ("a", "1") []
    [(500, [("a", "2")]), (400, [("a", "3")])] (by decide)

/-- Claim C9: tearing the session down before the debounce window elapses
yields zero saves, even after every remaining timer would have fired: the
unmount cleanup clears the debounce timer, nothing is ever attempted and no
storage area is written. -/
theorem C9_teardown_cancels (k : String) (hk : ¬ (k = "")) (d t0 tU : Nat)
    (hU : tU < t0 + d) (p : String × String) (ps : List (String × String)) :
    (runScenario (lsCfg k d) envAllOk 20
        [⟨t0, .change (some (p :: ps))⟩, ⟨tU, .unmount⟩]).attempts = []
    ∧ (runScenario (lsCfg k d) envAllOk 20
        [⟨t0, .change (some (p :: ps))⟩, ⟨tU, .unmount⟩]).localStore = []
    ∧ (runScenario (lsCfg k d) envAllOk 20
        [⟨t0, .change (some (p :: ps))⟩, ⟨tU, .unmount⟩]).sessionStore = []
    ∧ (runScenario (lsCfg k d) envAllOk 20
        [⟨t0, .change (some (p :: ps))⟩, ⟨tU, .unmount⟩]).debounce = none := by
  have hstep : handleEvent (lsCfg k d) envAllOk 20 (armedM k d t0 (p :: ps))
      ⟨tU, .unmount⟩ =
      { armedM k d t0 (p :: ps) with now := tU, debounce := none, mounted := false } := by
    unfold handleEvent
    have hnd : ¬ (t0 + d ≤ tU) := by omega
    have hpick : pickDue (some tU) (armedM k d t0 (p :: ps)) = none := by
      simp [pickDue, minRetry, armedM, hnd]
    rw [fireDue_pickDue_none _ _ _ _ _ hpick]
  have hrun : runScenario (lsCfg k d) envAllOk 20
      [⟨t0, .change (some (p :: ps))⟩, ⟨tU, .unmount⟩] =
      { armedM k d t0 (p :: ps) with now := tU, debounce := none, mounted := false } := by
    show fireDue (lsCfg k d) envAllOk 20 none
      (handleEvent (lsCfg k d) envAllOk 20
        (handleEvent (lsCfg k d) envAllOk 20 initialMachine
          ⟨t0, .change (some (p :: ps))⟩)
        ⟨tU, .unmount⟩) = _
    rw [handle_first_change k hk d 20 t0 p ps, hstep,
        fireDue_no_timers _ _ _ _ _ rfl rfl]
  rw [hrun]
  exact ⟨rfl, rfl, rfl, rfl⟩

/-- Claim C9, witness: unmount at 400 ms with a 1000 ms window. -/
theorem C9_teardown_cancels_witness :
    (runScenario (lsCfg "form" 1000) envAllOk 20
        [⟨0, .change (some [("a", "1")])⟩, ⟨400, .unmount⟩]).attempts = []
    ∧ (runScenario (lsCfg "form" 1000) envAllOk 20
        [⟨0, .change (some [("a", "1")])⟩, ⟨400, .unmount⟩]).localStore = []
    ∧ (runScenario (lsCfg "form" 1000) envAllOk 20
        [⟨0, .change (some [("a", "1")])⟩, ⟨400, .unmount⟩]).sessionStore = []
    ∧ (runScenario (lsCfg "form" 1000) envAllOk 20
        [⟨0, .change (some [("a", "1")])⟩, ⟨400, .unmount⟩]).debounce = none :=
  C9_teardown_cancels "form" (by decide) 1000 0 400 (by decide) ("a", "1") []

/-! ### Claim C8: no snapshot source configured -/

/-- The events a session without any snapshot source can experience: re-renders
observe `undefined` form state (`config.formData` absent, no `control`), plus
manual resume calls and unmounting. -/
def SourcelessEvent (te : TimedEvent) : Prop :=
  te.ev = .change none ∨ te.ev = .resume ∨ te.ev = .unmount

/-- The inert-session invariant: no observed snapshot, no timers, no attempts,
no errors, nothing written. -/
def InertInv (m : Machine) : Prop :=
  m.current = none ∧ m.debounce = none ∧ m.retries = [] ∧ m.attempts = []
  ∧ m.errors = [] ∧ m.localStore = [] ∧ m.sessionStore = []

/-- The effect preserves inertness: with no snapshot the gate skips. -/
theorem runEffect_inert (cfg : Config) (m : Machine) (h : InertInv m) :
    InertInv (runEffect cfg m) := by
  obtain ⟨h1, h2, h3, h4, h5, h6, h7⟩ := h
  refine ⟨?_, ?_, ?_, ?_, ?_, ?_, ?_⟩ <;>
    simp [runEffect, gateStep, h1, h3, h4, h5, h6, h7]

/-- One sourceless event preserves inertness. -/
theorem handleEvent_inert (cfg : Config) (env : Env) (fuel : Nat) (m : Machine)
    (te : TimedEvent) (hm : InertInv m) (hte : SourcelessEvent te) :
    InertInv (handleEvent cfg env fuel m te) := by
  have h2 := hm.2.1
  have h3 := hm.2.2.1
  unfold handleEvent
  rw [fireDue_no_timers _ _ _ _ _ h2 h3]
  rcases hte with h | h | h <;> rw [h]
  · show InertInv (if ({ m with now := te.time } : Machine).mounted = true then
        runEffect cfg { { m with now := te.time } with current := none }
      else { { m with now := te.time } with current := none })
    by_cases hmt : ({ m with now := te.time } : Machine).mounted = true
    · rw [if_pos hmt]
      exact runEffect_inert cfg _
        ⟨rfl, hm.2.1, hm.2.2.1, hm.2.2.2.1, hm.2.2.2.2.1, hm.2.2.2.2.2.1, hm.2.2.2.2.2.2⟩
    · rw [if_neg hmt]
      exact ⟨rfl, hm.2.1, hm.2.2.1, hm.2.2.2.1, hm.2.2.2.2.1, hm.2.2.2.2.2.1,
        hm.2.2.2.2.2.2⟩
  · show InertInv (applyResume cfg { m with now := te.time })
    unfold applyResume
    split_ifs with hmt hch
    · exact runEffect_inert cfg _
        ⟨hm.1, hm.2.1, hm.2.2.1, hm.2.2.2.1, hm.2.2.2.2.1, hm.2.2.2.2.2.1,
          hm.2.2.2.2.2.2⟩
    · exact ⟨hm.1, hm.2.1, hm.2.2.1, hm.2.2.2.1, hm.2.2.2.2.1, hm.2.2.2.2.2.1,
        hm.2.2.2.2.2.2⟩
    · exact ⟨hm.1, hm.2.1, hm.2.2.1, hm.2.2.2.1, hm.2.2.2.2.1, hm.2.2.2.2.2.1,
        hm.2.2.2.2.2.2⟩
  · exact ⟨hm.1, rfl, hm.2.2.1, hm.2.2.2.1, hm.2.2.2.2.1, hm.2.2.2.2.2.1,
      hm.2.2.2.2.2.2⟩

/-- Folding sourceless events preserves inertness. -/
theorem foldl_inert (cfg : Config) (env : Env) (fuel : Nat)
    (evs : List TimedEvent) :
    ∀ (m : Machine), InertInv m → (∀ te ∈ evs, SourcelessEvent te) →
      InertInv (List.foldl (handleEvent cfg env fuel) m evs) := by
  induction evs with
  | nil => intro m hm _; exact hm
  | cons te evs ih =>
    intro m hm h
    exact ih (handleEvent cfg env fuel m te)
      (handleEvent_inert cfg env fuel m te hm (h te (List.mem_cons_self _ _)))
      (fun q hq => h q (List.mem_cons_of_mem _ hq))

/-- Claim C8: when neither `formData` nor `control` is configured, the watched
form state is always absent, so for any configuration, environment and any
sequence of re-renders, resume calls and unmounting, the session never
attempts a save, reports no error and writes to no storage area (and, being a
total function of the machine, throws nothing); the mount-time diagnostic
warning — modelled from the spec, see `mountWarnings` — is emitted exactly
once for such a session and never when a source is configured. -/
theorem C8_no_source_inert (cfg : Config) (env : Env) (fuel : Nat)
    (evs : List TimedEvent) (hevs : ∀ te ∈ evs, SourcelessEvent te) :
    (runScenario cfg env fuel evs).attempts = []
    ∧ (runScenario cfg env fuel evs).errors = []
    ∧ (runScenario cfg env fuel evs).localStore = []
    ∧ (runScenario cfg env fuel evs).sessionStore = []
    ∧ mountWarnings false false = 1
    ∧ (∀ hf hc : Bool, hf = true ∨ hc = true → mountWarnings hf hc = 0) := by
  have hfold : InertInv (List.foldl (handleEvent cfg env fuel) initialMachine evs) :=
    foldl_inert cfg env fuel evs initialMachine
      ⟨rfl, rfl, rfl, rfl, rfl, rfl, rfl⟩ hevs
  have hfin : runScenario cfg env fuel evs =
      List.foldl (handleEvent cfg env fuel) initialMachine evs := by
    unfold runScenario
    exact fireDue_no_timers _ _ _ _ _ hfold.2.1 hfold.2.2.1
  rw [hfin]
  refine ⟨hfold.2.2.2.1, hfold.2.2.2.2.1, hfold.2.2.2.2.2.1, hfold.2.2.2.2.2.2, rfl, ?_⟩
  intro hf hc hor
  rcases hor with h | h <;> subst h <;> simp [mountWarnings]

/-- Claim C8, witness: a concrete sourceless session with a re-render, a
resume call and an unmount. -/
theorem C8_no_source_inert_witness :
    (runScenario { formKey := "testForm" } envAllOk 20
        [⟨0, .change none⟩, ⟨5, .resume⟩, ⟨9, .unmount⟩]).attempts = []
    ∧ (runScenario { formKey := "testForm" } envAllOk 20
        [⟨0, .change none⟩, ⟨5, .resume⟩, ⟨9, .unmount⟩]).errors = []
    ∧ (runScenario { formKey := "testForm" } envAllOk 20
        [⟨0, .change none⟩, ⟨5, .resume⟩, ⟨9, .unmount⟩]).localStore = []
    ∧ (runScenario { formKey := "testForm" } envAllOk 20
        [⟨0, .change none⟩, ⟨5, .resume⟩, ⟨9, .unmount⟩]).sessionStore = []
    ∧ mountWarnings false false = 1
    ∧ (∀ hf hc : Bool, hf = true ∨ hc = true → mountWarnings hf hc = 0) :=
  C8_no_source_inert { formKey := "testForm" } envAllOk 20
    [⟨0, .change none⟩, ⟨5, .resume⟩, ⟨9, .unmount⟩]
    (by intro te hte; fin_cases hte <;> simp [SourcelessEvent])
